import Mathlib

/-!
# Verification of the interactive-video widget core

A shallow embedding of the `InteractiveVideoSDK` class (TypeScript) and
proofs about its option-set resolution/caching, option dispatch, playback
state and session-visibility gate.  The embedding follows the most complete
revision of the class (the one carrying the session-closed gate on `show`,
`stopAllAudio`, and the time-update callback); where earlier revisions
differ (they play unconditionally in `playVideo` and merely `pause()` on
minimize) the difference is noted and does not affect any proved statement
about `currentVideoId`, the option store, or the visibility flags.

External collaborators (the network, the blob loader, platform playback
permission) are modelled as explicit oracle parameters; the DOM is reduced
to the boolean visibility facts the code reads back (`widget.style.display`,
`container.style.display`) and the media-element facts the code writes
(`src`, `paused`, `currentTime`).
-/

namespace IVSDK

/-- The four action tags of `InteractiveOption.action`
(`'playVideo' | 'openUrl' | 'startChat' | 'changeOptions'`). -/
inductive OptionAction
  | playVideo
  | openUrl
  | startChat
  | changeOptions
deriving DecidableEq, Repr

/-- `InteractiveOption` from `types.ts`:
`{ id: string; text: string; action: ...; payload: string }`. -/
structure InteractiveOption where
  id : String
  text : String
  action : OptionAction
  payload : String
deriving DecidableEq, Repr

/-- A video source: `url : string | Blob`.  A string source is either an
ordinary reference URL or an object URL produced by
`URL.createObjectURL` (which always yields a string starting with
`"blob:"`); a `Blob` object is an opaque binary handle. -/
inductive VideoSrc
  | strUrl (u : String)
  | blobObj (n : Nat)
deriving DecidableEq, Repr

/-- `Video` from `types.ts`: `{ id: string; url: string | Blob; title: string }`. -/
structure Video where
  id : String
  url : VideoSrc
  title : String
deriving DecidableEq, Repr

/-- Outcome of one remote option lookup
(`fetch` + status check + `json()` parse): either a parsed option list,
or failure (non-2xx status, transport failure, or parse failure — all of
which land in the same `catch` block of `fetchOptions`). -/
inductive NetResponse
  | ok (opts : List InteractiveOption)
  | fail
deriving DecidableEq, Repr

/-- `url.startsWith('blob:')`, computed over the underlying character
lists (observationally equal to `String.startsWith`; stated this way so
that concrete states evaluate inside the kernel). -/
def strStartsWith (s pre : String) : Bool :=
  pre.data.isPrefixOf s.data

/-- Association-list model of the TypeScript `Map` held in
`this.optionSets`: lookup returns the most recently `set` binding. -/
def mapLookup {α : Type} : List (String × α) → String → Option α
  | [], _ => none
  | (k, v) :: rest, key => if key = k then some v else mapLookup rest key

/-- `Map.set`: bind `k` to `v`, shadowing any earlier binding. -/
def mapSet {α : Type} (m : List (String × α)) (k : String) (v : α) :
    List (String × α) :=
  (k, v) :: m

/-- `Map.delete`: remove every binding of `k`. -/
def mapDelete {α : Type} (m : List (String × α)) (k : String) :
    List (String × α) :=
  m.filter (fun p => p.1 ≠ k)

/-- The mutable instance state of `InteractiveVideoSDK`, restricted to the
fields the verified claims are about, together with the DOM/media facts the
code itself reads or writes:

* `videos`, `interactiveOptions`, `currentVideoId`, `optionSets`, `apiUrl`,
  `isMinimized` are instance fields of the class;
* `widgetDisplayed` is `this.widget.style.display !== 'none'`;
* `containerVisible` is `this.container.style.display === 'block'`;
* `closedForSession` is
  `sessionStorage.getItem('interactiveVideoWidgetClosed') === 'true'`;
* `mediaSrc`/`mediaPlaying`/`mediaTime` are the media element's bound
  source, not-paused flag and current position;
* `timeCallback` records whether `videoTimeUpdateCallback` is non-null. -/
structure SDKState where
  videos : List Video
  interactiveOptions : List InteractiveOption
  currentVideoId : Option String
  optionSets : List (String × List InteractiveOption)
  apiUrl : Option String
  isMinimized : Bool
  widgetDisplayed : Bool
  containerVisible : Bool
  closedForSession : Bool
  mediaSrc : Option VideoSrc
  mediaPlaying : Bool
  mediaTime : Nat
  timeCallback : Bool
deriving DecidableEq, Repr

/-- A freshly constructed instance with no videos, options or option sets:
`isMinimized = true`, expanded widget hidden (`display: 'none'`), no
current video, empty store, no remote endpoint. -/
def baseState : SDKState where
  videos := []
  interactiveOptions := []
  currentVideoId := none
  optionSets := []
  apiUrl := none
  isMinimized := true
  widgetDisplayed := false
  containerVisible := false
  closedForSession := false
  mediaSrc := none
  mediaPlaying := false
  mediaTime := 0
  timeCallback := false

/-- Result of `fetchOptions`: the returned option list, the instance state
after the call, and whether an outbound network request was issued. -/
structure FetchOut where
  options : List InteractiveOption
  state : SDKState
  requested : Bool
deriving DecidableEq, Repr

/-- `fetchOptions(optionsId)`:

```ts
if (this.optionSets.has(optionsId)) { return this.optionSets.get(optionsId)!; }
if (this.apiUrl) {
  try {
    const response = await fetch(`...`);
    if (!response.ok) throw ...;
    const options = await response.json();
    this.optionSets.set(optionsId, options);
    return options;
  } catch (error) { console.error(...); return []; }
}
console.warn(...); return [];
```

The `net` oracle stands for the fetch + status check + parse; its `fail`
case covers every path into the `catch` block.  The function is total:
every failure path is caught inside `fetchOptions`, so nothing is raised
to the caller. -/
def fetchOptions (s : SDKState) (net : String → NetResponse)
    (optionsId : String) : FetchOut :=
  match mapLookup s.optionSets optionsId with
  | some opts => ⟨opts, s, false⟩
  | none =>
    match s.apiUrl with
    | some _ =>
      match net optionsId with
      | .ok opts =>
          ⟨opts, { s with optionSets := mapSet s.optionSets optionsId opts },
            true⟩
      | .fail => ⟨[], s, true⟩
    | none => ⟨[], s, false⟩

/-- `changeInteractiveOptions(optionsId)`:
`this.interactiveOptions = await this.fetchOptions(optionsId);` followed by
a re-render. -/
def changeInteractiveOptions (s : SDKState) (net : String → NetResponse)
    (optionsId : String) : SDKState :=
  let out := fetchOptions s net optionsId
  { out.state with interactiveOptions := out.options }

/-- `playVideo(videoId)`: find the video by id; if absent, do nothing.
Otherwise bind the media element's source to the video's current source
value, request playback (in the gated revision only while the expanded
widget is displayed; `playOk` is the platform's verdict on the `play()`
call), and record `currentVideoId = videoId`. -/
def playVideo (playOk : Bool) (s : SDKState) (videoId : String) : SDKState :=
  match s.videos.find? (fun v => v.id == videoId) with
  | none => s
  | some v =>
      { s with
        mediaSrc := some v.url
        mediaPlaying := if s.widgetDisplayed then playOk else s.mediaPlaying
        currentVideoId := some videoId }

/-- `stopAllAudio()` restricted to the widget's own media element:
`pause(); currentTime = 0; src = ''; load();` — pause, rewind to zero, and
release the bound source. -/
def stopAllAudio (s : SDKState) : SDKState :=
  { s with mediaPlaying := false, mediaTime := 0, mediaSrc := none }

/-- `hide()`: `container.style.display = 'none'; this.stopAllAudio();`. -/
def hideWidget (s : SDKState) : SDKState :=
  stopAllAudio { s with containerVisible := false }

/-- `show()`: make the container visible only when the session-closed flag
is not set; otherwise do nothing at all. -/
def showWidget (s : SDKState) : SDKState :=
  if s.closedForSession then s else { s with containerVisible := true }

/-- `toggleWidget()`: expand (and resume the current video if one is set)
when minimized; otherwise hide the expanded widget and stop all audio.
The `widget.style.display` write precedes the `playVideo` call, exactly as
in the source. -/
def toggleWidget (playOk : Bool) (s : SDKState) : SDKState :=
  if s.isMinimized then
    let s1 := { s with widgetDisplayed := true }
    let s2 := match s1.currentVideoId with
      | some vid => playVideo playOk s1 vid
      | none => s1
    { s2 with isMinimized := false }
  else
    { stopAllAudio { s with widgetDisplayed := false } with isMinimized := true }

/-- `closeWidget`: `hide(); stopAllAudio(); setClosedForSession();
videoTimeUpdateCallback = null;`. -/
def closeWidget (s : SDKState) : SDKState :=
  { stopAllAudio (hideWidget s) with
    closedForSession := true
    timeCallback := false }

/-- `resetClosedState()`:
`sessionStorage.removeItem('interactiveVideoWidgetClosed')`. -/
def resetClosedState (s : SDKState) : SDKState :=
  { s with closedForSession := false }

/-- `startIntercomChat(message)`: `this.hide()` then hand off to the
external chat capability (opaque; reported-if-absent, never re-shows). -/
def startIntercomChat (s : SDKState) : SDKState :=
  hideWidget s

/-- `replayVideo`: `if (this.currentVideoId) this.playVideo(this.currentVideoId)`. -/
def replayVideo (playOk : Bool) (s : SDKState) : SDKState :=
  match s.currentVideoId with
  | some vid => playVideo playOk s vid
  | none => s

/-- `handleOptionClick(option)`: the four-way routing table on
`option.action`.  `openUrl` only invokes the external navigation
capability, leaving the instance state untouched. -/
def handleOptionClick (net : String → NetResponse) (playOk : Bool)
    (s : SDKState) (opt : InteractiveOption) : SDKState :=
  match opt.action with
  | .playVideo => playVideo playOk s opt.payload
  | .openUrl => s
  | .startChat => startIntercomChat s
  | .changeOptions => changeInteractiveOptions s net opt.payload

/-- `removeVideo(videoId)`:

```ts
this.videos = this.videos.filter(v => v.id !== videoId);
if (this.currentVideoId === videoId) {
  this.currentVideoId = null;
  if (this.videos.length > 0) { this.playVideo(this.videos[0].id); }
}
```
-/
def removeVideo (playOk : Bool) (s : SDKState) (videoId : String) : SDKState :=
  let remaining := s.videos.filter (fun v => v.id != videoId)
  let s1 := { s with videos := remaining }
  if s.currentVideoId = some videoId then
    let s2 := { s1 with currentVideoId := none }
    match remaining with
    | [] => s2
    | v :: _ => playVideo playOk s2 v.id
  else s1

/-- Source-materialization of one video, as performed per-element by
`loadVideos`: a string URL not already in `blob:` form is fetched and
converted; on success the source is replaced by the object URL returned by
`URL.createObjectURL` (always a `blob:`-prefixed string), on failure the
source is left untouched.  The `loader` oracle yields the object-URL
handle, or `none` for fetch/convert failure. -/
def loadVideo1 (loader : String → Option String) (v : Video) : Video :=
  match v.url with
  | .strUrl u =>
    if strStartsWith u "blob:" then v
    else
      match loader u with
      | some handle => { v with url := .strUrl ("blob:" ++ handle) }
      | none => v
  | .blobObj _ => v

/-- `loadVideos()`: materialize each configured video's source in place;
a per-video failure is caught and logged, leaving that element unchanged
and still in the list. -/
def loadVideos (loader : String → Option String) (s : SDKState) : SDKState :=
  { s with videos := s.videos.map (loadVideo1 loader) }

/-- `addVideo(video)`:

```ts
if (typeof video.url === 'string' && !video.url.startsWith('blob:')) {
  fetch(video.url).then(r => r.blob()).then(blob => {
    video.url = URL.createObjectURL(blob);
    this.videos.push(video);
  }).catch(error => console.error(...));
} else { this.videos.push(video); }
```

Note that the `push` for a reference-form source sits inside the success
continuation: when the fetch/convert fails, only the `catch` logger runs
and the video is never appended. -/
def addVideo (loader : String → Option String) (s : SDKState)
    (video : Video) : SDKState :=
  match video.url with
  | .strUrl u =>
    if strStartsWith u "blob:" then { s with videos := s.videos ++ [video] }
    else
      match loader u with
      | some handle =>
          { s with
            videos := s.videos ++ [{ video with url := .strUrl ("blob:" ++ handle) }] }
      | none => s
  | .blobObj _ => { s with videos := s.videos ++ [video] }

/-- `addInteractiveOption(option)`. -/
def addInteractiveOption (s : SDKState) (o : InteractiveOption) : SDKState :=
  { s with interactiveOptions := s.interactiveOptions ++ [o] }

/-- `removeInteractiveOption(optionId)`. -/
def removeInteractiveOption (s : SDKState) (optionId : String) : SDKState :=
  { s with
    interactiveOptions := s.interactiveOptions.filter (fun o => o.id != optionId) }

/-- `addOptionSet(id, options)`: `this.optionSets.set(id, options)` —
overwrites any existing entry unconditionally. -/
def addOptionSet (s : SDKState) (id : String)
    (opts : List InteractiveOption) : SDKState :=
  { s with optionSets := mapSet s.optionSets id opts }

/-- `removeOptionSet(id)`: `this.optionSets.delete(id)`. -/
def removeOptionSet (s : SDKState) (id : String) : SDKState :=
  { s with optionSets := mapDelete s.optionSets id }

/-- `setApiUrl(url)`. -/
def setApiUrl (s : SDKState) (u : String) : SDKState :=
  { s with apiUrl := some u }

/-- One invocation of the public/dispatch surface of the widget, used to
quantify over "whatever the host does next" in the temporal claims. -/
inductive SDKOp
  | showOp
  | hideOp
  | toggleOp
  | closeOp
  | resetClosedOp
  | resolveOp (id : String)
  | playOp (videoId : String)
  | replayOp
  | chatOp
  | addVideoOp (v : Video)
  | removeVideoOp (videoId : String)
  | addOptionOp (o : InteractiveOption)
  | removeOptionOp (optionId : String)
  | addOptionSetOp (id : String) (opts : List InteractiveOption)
  | removeOptionSetOp (id : String)
  | setApiUrlOp (u : String)
deriving DecidableEq, Repr

/-- Interpretation of one operation, with the three external oracles
(remote option lookup, blob loader, platform playback verdict) supplied. -/
def step (net : String → NetResponse) (loader : String → Option String)
    (playOk : Bool) : SDKOp → SDKState → SDKState
  | .showOp, s => showWidget s
  | .hideOp, s => hideWidget s
  | .toggleOp, s => toggleWidget playOk s
  | .closeOp, s => closeWidget s
  | .resetClosedOp, s => resetClosedState s
  | .resolveOp id, s => changeInteractiveOptions s net id
  | .playOp vid, s => playVideo playOk s vid
  | .replayOp, s => replayVideo playOk s
  | .chatOp, s => startIntercomChat s
  | .addVideoOp v, s => addVideo loader s v
  | .removeVideoOp vid, s => removeVideo playOk s vid
  | .addOptionOp o, s => addInteractiveOption s o
  | .removeOptionOp oid, s => removeInteractiveOption s oid
  | .addOptionSetOp id opts, s => addOptionSet s id opts
  | .removeOptionSetOp id, s => removeOptionSet s id
  | .setApiUrlOp u, s => setApiUrl s u

/-- Run a sequence of host-driven operations. -/
def run (net : String → NetResponse) (loader : String → Option String)
    (playOk : Bool) (ops : List SDKOp) (s : SDKState) : SDKState :=
  ops.foldl (fun st op => step net loader playOk op st) s

/-!
## Interleaving model for concurrent `ChangeOptions` dispatches

`changeInteractiveOptions` is `async`: everything up to the first `await`
inside `fetchOptions` runs synchronously at dispatch time (the cache
check, the `apiUrl` check, and — on a miss with a configured endpoint —
issuing the request), while the rest (receiving the response, the cache
write, and the assignment `this.interactiveOptions = newOptions`) runs
later as a continuation on the single-threaded callback queue.  A second
dispatch may therefore be started while the first is still in flight;
nothing deduplicates or cancels pending resolutions.
-/

/-- One in-flight `ChangeOptions` resolution, recorded at its dispatch:
a synchronous cache hit (the options were read at dispatch time), a
remote request for an id, or the no-endpoint miss. -/
inductive PendingResolve
  | hit (opts : List InteractiveOption)
  | remote (id : String)
  | noRemote
deriving DecidableEq, Repr

/-- The instance state together with the in-flight resolutions and the
outbound requests issued so far. -/
structure World where
  sdk : SDKState
  pending : List PendingResolve
  requests : List String
deriving DecidableEq, Repr

/-- The synchronous prefix of a `ChangeOptions` dispatch: consult the
cache and the endpoint now, issue the request now on a miss, and leave a
pending continuation.  No existing pending resolution is removed. -/
def dispatchChange (w : World) (id : String) : World :=
  match mapLookup w.sdk.optionSets id with
  | some opts => { w with pending := w.pending ++ [.hit opts] }
  | none =>
    match w.sdk.apiUrl with
    | some _ =>
        { w with
          pending := w.pending ++ [.remote id]
          requests := w.requests ++ [id] }
    | none => { w with pending := w.pending ++ [.noRemote] }

/-- The option list a pending resolution's continuation will install,
given the network's verdict. -/
def completionResult (net : String → NetResponse) :
    PendingResolve → List InteractiveOption
  | .hit opts => opts
  | .remote id =>
    match net id with
    | .ok opts => opts
    | .fail => []
  | .noRemote => []

/-- Run one pending resolution's continuation: on a remote success, write
the cache and install the options; otherwise install the (cached or
empty) options.  The assignment `this.interactiveOptions = newOptions`
always replaces the whole active list. -/
def applyCompletion (net : String → NetResponse) (w : World)
    (p : PendingResolve) : World :=
  match p with
  | .hit opts => { w with sdk := { w.sdk with interactiveOptions := opts } }
  | .remote id =>
    match net id with
    | .ok opts =>
        { w with sdk :=
          { w.sdk with
            optionSets := mapSet w.sdk.optionSets id opts
            interactiveOptions := opts } }
    | .fail => { w with sdk := { w.sdk with interactiveOptions := [] } }
  | .noRemote => { w with sdk := { w.sdk with interactiveOptions := [] } }

/-!
## Helper lemmas
-/

theorem mapLookup_mapSet_self {α : Type} (m : List (String × α)) (k : String)
    (v : α) : mapLookup (mapSet m k v) k = some v := by
  simp [mapLookup, mapSet]

theorem mapLookup_mapSet_ne {α : Type} (m : List (String × α))
    (k k' : String) (v : α) (h : k' ≠ k) :
    mapLookup (mapSet m k v) k' = mapLookup m k' := by
  simp [mapLookup, mapSet, h]

theorem mapLookup_mapDelete_ne {α : Type} (m : List (String × α))
    (k k' : String) (h : k' ≠ k) :
    mapLookup (mapDelete m k) k' = mapLookup m k' := by
  induction m with
  | nil => simp [mapDelete, mapLookup]
  | cons hd tl ih =>
      simp only [mapDelete, ne_eq, decide_not] at ih ⊢
      rw [List.filter_cons]
      by_cases hk : hd.1 = k
      · simp [hk, mapLookup, h, ih]
      · by_cases hk' : k' = hd.1
        · simp [hk, mapLookup, hk']
        · simp [hk, mapLookup, hk', ih]

/-- A cache hit: `fetchOptions` returns the stored options synchronously,
with no state change and no request. -/
theorem fetchOptions_hit (s : SDKState) (net : String → NetResponse)
    (id : String) (opts : List InteractiveOption)
    (h : mapLookup s.optionSets id = some opts) :
    fetchOptions s net id = ⟨opts, s, false⟩ := by
  simp [fetchOptions, h]

/-!
## Claim theorems
-/

/-- **C1.** `fetchOptions` follows the three-step short-circuit order: a
locally stored id is returned synchronously with no request and no state
change; otherwise, with a remote endpoint configured, exactly one request
is issued and, on success, the parsed options are stored under the id and
returned, while any failure yields an empty list with the store untouched;
otherwise (no endpoint, unknown id) an empty list is returned with no
request.  The three cases are exhaustive and the function is total, so no
error reaches the caller. -/
theorem fetchOptions_resolution_order (s : SDKState)
    (net : String → NetResponse) (id : String) :
    (∀ opts, mapLookup s.optionSets id = some opts →
        fetchOptions s net id = ⟨opts, s, false⟩)
  ∧ (mapLookup s.optionSets id = none →
      ∀ u, s.apiUrl = some u →
        (∀ opts, net id = .ok opts →
            fetchOptions s net id =
              ⟨opts, { s with optionSets := mapSet s.optionSets id opts },
                true⟩)
        ∧ (net id = .fail → fetchOptions s net id = ⟨[], s, true⟩))
  ∧ (mapLookup s.optionSets id = none → s.apiUrl = none →
      fetchOptions s net id = ⟨[], s, false⟩) := by
  refine ⟨fun opts h => fetchOptions_hit s net id opts h, ?_, ?_⟩
  · intro hmiss u hu
    constructor
    · intro opts hok
      simp [fetchOptions, hmiss, hu, hok]
    · intro hfail
      simp [fetchOptions, hmiss, hu, hfail]
  · intro hmiss hnone
    simp [fetchOptions, hmiss, hnone]

/-- A sample option used by several concrete witnesses. -/
def sampleOpt : InteractiveOption :=
  { id := "watch-intro", text := "Watch Intro",
    action := .playVideo, payload := "intro" }

/-- A state with one predefined option set and a configured endpoint. -/
def c1State : SDKState :=
  { baseState with
    optionSets := [("menu", [sampleOpt])]
    apiUrl := some "https://api.example.com" }

/-- A network oracle that succeeds only for the id `"other"`. -/
def c1Net : String → NetResponse :=
  fun id => if id = "other" then .ok [sampleOpt] else .fail

/-- Concrete instantiation of `fetchOptions_resolution_order`, covering
every branch: cache hit, remote success, remote failure, and
no-endpoint miss. -/
theorem fetchOptions_resolution_order_witness :
    fetchOptions c1State c1Net "menu" = ⟨[sampleOpt], c1State, false⟩
  ∧ fetchOptions c1State c1Net "other" =
      ⟨[sampleOpt],
        { c1State with
          optionSets := mapSet c1State.optionSets "other" [sampleOpt] },
        true⟩
  ∧ fetchOptions c1State c1Net "missing" = ⟨[], c1State, true⟩
  ∧ fetchOptions baseState c1Net "menu" = ⟨[], baseState, false⟩ := by
  refine ⟨(fetchOptions_resolution_order c1State c1Net "menu").1 [sampleOpt]
      (by decide),
    ((fetchOptions_resolution_order c1State c1Net "other").2.1 (by decide)
        "https://api.example.com" (by decide)).1 [sampleOpt] (by decide),
    ((fetchOptions_resolution_order c1State c1Net "missing").2.1 (by decide)
        "https://api.example.com" (by decide)).2 (by decide),
    (fetchOptions_resolution_order baseState c1Net "menu").2.2 (by decide)
      (by decide)⟩

/-- **C10.** A failed remote resolution (non-success status or transport
failure, both landing in the `catch`) leaves the option-set mapping — and
the whole instance state — unchanged: no entry is cached for the failed
id, so resolving the same id again issues a fresh network request. -/
theorem fetchOptions_failure_not_cached (s : SDKState)
    (net : String → NetResponse) (id u : String)
    (hmiss : mapLookup s.optionSets id = none)
    (hu : s.apiUrl = some u)
    (hfail : net id = .fail) :
    fetchOptions s net id = ⟨[], s, true⟩
  ∧ (fetchOptions s net id).state.optionSets = s.optionSets
  ∧ (fetchOptions (fetchOptions s net id).state net id).requested = true := by
  have h1 : fetchOptions s net id = ⟨[], s, true⟩ := by
    simp [fetchOptions, hmiss, hu, hfail]
  refine ⟨h1, by rw [h1], ?_⟩
  rw [h1]
  simp [fetchOptions, hmiss, hu, hfail]

/-- Concrete instantiation of `fetchOptions_failure_not_cached`: the id
`"missing"` fails against `c1Net`, caches nothing, and a retry issues a
second request. -/
theorem fetchOptions_failure_not_cached_witness :
    fetchOptions c1State c1Net "missing" = ⟨[], c1State, true⟩
  ∧ (fetchOptions c1State c1Net "missing").state.optionSets
      = c1State.optionSets
  ∧ (fetchOptions (fetchOptions c1State c1Net "missing").state c1Net
      "missing").requested = true :=
  fetchOptions_failure_not_cached c1State c1Net "missing"
    "https://api.example.com" (by decide) (by decide) (by decide)

/-- The returned options of `fetchOptions` do not depend on the active
option list. -/
theorem fetchOptions_options_congr (s : SDKState)
    (net : String → NetResponse) (id : String)
    (l : List InteractiveOption) :
    (fetchOptions { s with interactiveOptions := l } net id).options
      = (fetchOptions s net id).options := by
  unfold fetchOptions
  cases h : mapLookup s.optionSets id with
  | some opts => simp [h]
  | none =>
      cases hu : s.apiUrl with
      | none => simp [h, hu]
      | some u =>
          cases hn : net id with
          | ok opts => simp [h, hu, hn]
          | fail => simp [h, hu, hn]

/-- **C3.** After a `ChangeOptions` dispatch completes its resolution, the
active option list equals exactly the resolved sequence (a whole-list
replacement, empty included), and the result is independent of the
previous active list — never a partial update or merge. -/
theorem changeInteractiveOptions_replaces_whole_list (s : SDKState)
    (net : String → NetResponse) (id : String) :
    (changeInteractiveOptions s net id).interactiveOptions
        = (fetchOptions s net id).options
  ∧ ∀ l1 l2 : List InteractiveOption,
      (changeInteractiveOptions { s with interactiveOptions := l1 } net
          id).interactiveOptions
        = (changeInteractiveOptions { s with interactiveOptions := l2 } net
          id).interactiveOptions := by
  refine ⟨rfl, fun l1 l2 => ?_⟩
  show (fetchOptions { s with interactiveOptions := l1 } net id).options
      = (fetchOptions { s with interactiveOptions := l2 } net id).options
  exact (fetchOptions_options_congr s net id l1).trans
    (fetchOptions_options_congr s net id l2).symm

/-- **C7.** Toggling the widget from expanded to minimized always ends
with zero ongoing playback: the media element is paused, rewound to
position zero, and its bound source released (the `stopAllAudio`
postcondition), and the widget is minimized. -/
theorem toggle_minimize_stops_playback (playOk : Bool) (s : SDKState)
    (h : s.isMinimized = false) :
    (toggleWidget playOk s).mediaPlaying = false
  ∧ (toggleWidget playOk s).mediaTime = 0
  ∧ (toggleWidget playOk s).mediaSrc = none
  ∧ (toggleWidget playOk s).isMinimized = true := by
  simp [toggleWidget, h, stopAllAudio]

/-- An expanded widget state with audible playback in progress. -/
def c7State : SDKState :=
  { baseState with
    isMinimized := false
    widgetDisplayed := true
    containerVisible := true
    mediaSrc := some (.strUrl "blob:abc")
    mediaPlaying := true
    mediaTime := 42 }

/-- Concrete instantiation of `toggle_minimize_stops_playback` on a
playing, expanded widget. -/
theorem toggle_minimize_stops_playback_witness :
    (toggleWidget true c7State).mediaPlaying = false
  ∧ (toggleWidget true c7State).mediaTime = 0
  ∧ (toggleWidget true c7State).mediaSrc = none
  ∧ (toggleWidget true c7State).isMinimized = true :=
  toggle_minimize_stops_playback true c7State (by decide)

/-!
### Invariance of the option-set store under unrelated operations
-/

theorem playVideo_optionSets (p : Bool) (s : SDKState) (v : String) :
    (playVideo p s v).optionSets = s.optionSets := by
  unfold playVideo
  cases s.videos.find? (fun x => x.id == v) <;> rfl

theorem showWidget_optionSets (s : SDKState) :
    (showWidget s).optionSets = s.optionSets := by
  unfold showWidget
  split <;> rfl

theorem toggleWidget_optionSets (p : Bool) (s : SDKState) :
    (toggleWidget p s).optionSets = s.optionSets := by
  unfold toggleWidget
  split
  · cases h : s.currentVideoId <;> simp [h, playVideo_optionSets]
  · rfl

theorem replayVideo_optionSets (p : Bool) (s : SDKState) :
    (replayVideo p s).optionSets = s.optionSets := by
  unfold replayVideo
  cases h : s.currentVideoId <;> simp [h, playVideo_optionSets]

theorem removeVideo_optionSets (p : Bool) (s : SDKState) (v : String) :
    (removeVideo p s v).optionSets = s.optionSets := by
  unfold removeVideo
  split
  · cases s.videos.filter (fun x => x.id != v) <;>
      simp [playVideo_optionSets]
  · rfl

theorem addVideo_optionSets (loader : String → Option String)
    (s : SDKState) (v : Video) :
    (addVideo loader s v).optionSets = s.optionSets := by
  unfold addVideo
  cases v.url with
  | strUrl u =>
      by_cases hb : strStartsWith u "blob:"
      · simp [hb]
      · cases hl : loader u <;> simp [hb, hl]
  | blobObj n => rfl

/-- Whether an operation is an explicit `put`/`remove` of the option-set
entry keyed `id` — the only two ways the spec allows an existing entry to
change. -/
def writesSet (op : SDKOp) (id : String) : Bool :=
  match op with
  | .addOptionSetOp j _ => j == id
  | .removeOptionSetOp j => j == id
  | _ => false

/-- Any single operation that is not an explicit `put`/`remove` of the
entry keyed `id` preserves that entry. -/
theorem step_preserves_cached (net : String → NetResponse)
    (loader : String → Option String) (playOk : Bool) (op : SDKOp)
    (s : SDKState) (id : String) (opts : List InteractiveOption)
    (h : mapLookup s.optionSets id = some opts)
    (hop : writesSet op id = false) :
    mapLookup (step net loader playOk op s).optionSets id = some opts := by
  cases op with
  | showOp => rw [step, showWidget_optionSets]; exact h
  | hideOp => exact h
  | toggleOp => rw [step, toggleWidget_optionSets]; exact h
  | closeOp => exact h
  | resetClosedOp => exact h
  | playOp vid => rw [step, playVideo_optionSets]; exact h
  | replayOp => rw [step, replayVideo_optionSets]; exact h
  | chatOp => exact h
  | addVideoOp v => rw [step, addVideo_optionSets]; exact h
  | removeVideoOp vid => rw [step, removeVideo_optionSets]; exact h
  | addOptionOp o => exact h
  | removeOptionOp oid => exact h
  | setApiUrlOp u => exact h
  | addOptionSetOp j o =>
      have hj : id ≠ j := by
        simp [writesSet] at hop
        exact fun hc => hop hc.symm
      rw [step]
      show mapLookup (addOptionSet s j o).optionSets id = some opts
      rw [addOptionSet, mapLookup_mapSet_ne _ _ _ _ hj]
      exact h
  | removeOptionSetOp j =>
      have hj : id ≠ j := by
        simp [writesSet] at hop
        exact fun hc => hop hc.symm
      rw [step]
      show mapLookup (removeOptionSet s j).optionSets id = some opts
      rw [removeOptionSet]
      rw [show (({ s with optionSets := mapDelete s.optionSets j } :
          SDKState)).optionSets = mapDelete s.optionSets j from rfl]
      rw [mapLookup_mapDelete_ne _ _ _ hj]
      exact h
  | resolveOp j =>
      rw [step]
      show mapLookup (changeInteractiveOptions s net j).optionSets id
        = some opts
      unfold changeInteractiveOptions
      cases hj : mapLookup s.optionSets j with
      | some o => simp [fetchOptions, hj, h]
      | none =>
          cases hu : s.apiUrl with
          | none => simp [fetchOptions, hj, hu, h]
          | some u =>
              cases hn : net j with
              | ok o =>
                  have hji : id ≠ j := by
                    intro hc
                    rw [hc, hj] at h
                    cases h
                  simp [fetchOptions, hj, hu, hn,
                    mapLookup_mapSet_ne _ _ _ _ hji, h]
              | fail => simp [fetchOptions, hj, hu, hn, h]

/-- A sequence of operations none of which explicitly replaces or removes
the entry keyed `id` preserves that entry. -/
theorem run_preserves_cached (net : String → NetResponse)
    (loader : String → Option String) (playOk : Bool) (ops : List SDKOp) :
    ∀ (s : SDKState) (id : String) (opts : List InteractiveOption),
      mapLookup s.optionSets id = some opts →
      (∀ op ∈ ops, writesSet op id = false) →
      mapLookup (run net loader playOk ops s).optionSets id = some opts := by
  induction ops with
  | nil =>
      intro s id opts h _
      simpa [run] using h
  | cons op rest ih =>
      intro s id opts h hops
      have h1 := step_preserves_cached net loader playOk op s id opts h
        (hops op (List.mem_cons_self op rest))
      have h2 := ih (step net loader playOk op s) id opts h1
        (fun o ho => hops o (List.mem_cons_of_mem op ho))
      simpa [run] using h2

/-- **C2.** Once an id is present in the store (predefined, put via
`addOptionSet`, or cached by a successful remote resolution), every
subsequent resolve of it — after any sequence of operations that never
explicitly replaces or removes that entry — returns the same stored option
sequence, changes nothing, and performs no network activity. -/
theorem resolve_cached_stable (net : String → NetResponse)
    (loader : String → Option String) (playOk : Bool) (s : SDKState)
    (id : String) (opts : List InteractiveOption) (ops : List SDKOp)
    (h : mapLookup s.optionSets id = some opts)
    (hops : ∀ op ∈ ops, writesSet op id = false) :
    mapLookup (run net loader playOk ops s).optionSets id = some opts
  ∧ fetchOptions (run net loader playOk ops s) net id
      = ⟨opts, run net loader playOk ops s, false⟩ := by
  have hpres := run_preserves_cached net loader playOk ops s id opts h hops
  exact ⟨hpres, fetchOptions_hit _ net id opts hpres⟩

/-- A blob loader that always fails. -/
def noLoader : String → Option String := fun _ => none

/-- A mixed operation sequence touching playback, visibility, other option
sets and other resolutions, but never replacing or removing `"menu"`. -/
def c2Ops : List SDKOp :=
  [.toggleOp, .resolveOp "menu", .addOptionSetOp "other" [],
   .hideOp, .resolveOp "missing", .removeOptionSetOp "other", .showOp]

/-- Concrete instantiation of `resolve_cached_stable`: after `c2Ops`, the
predefined set `"menu"` still resolves to the same options with no
request. -/
theorem resolve_cached_stable_witness :
    mapLookup (run c1Net noLoader true c2Ops c1State).optionSets "menu"
      = some [sampleOpt]
  ∧ fetchOptions (run c1Net noLoader true c2Ops c1State) c1Net "menu"
      = ⟨[sampleOpt], run c1Net noLoader true c2Ops c1State, false⟩ :=
  resolve_cached_stable c1Net noLoader true c1State "menu" [sampleOpt]
    c2Ops (by decide) (by decide)

/-!
### Playback-state claims
-/

/-- `currentVideoId`, when non-none, refers to an id present in the video
list. -/
def currentIdValid (s : SDKState) : Prop :=
  ∀ v, s.currentVideoId = some v → v ∈ s.videos.map Video.id

theorem mem_map_id_filter (videos : List Video) (vid x : String)
    (hmem : vid ∈ videos.map Video.id) (hne : vid ≠ x) :
    vid ∈ (videos.filter (fun v => v.id != x)).map Video.id := by
  rcases List.mem_map.1 hmem with ⟨v, hv, hvid⟩
  refine List.mem_map.2 ⟨v, List.mem_filter.2 ⟨hv, ?_⟩, hvid⟩
  simp [hvid, hne]

/-- **C4.** With a current video set: removing it clears `currentVideoId`
when no videos remain, and otherwise reassigns it to the id of the new
first video; removing any other id leaves `currentVideoId` unchanged; and
the invariant that a non-none `currentVideoId` names a listed video is
preserved by every removal. -/
theorem removeVideo_currentVideoId_spec (playOk : Bool) (s : SDKState)
    (vid : String) (h : s.currentVideoId = some vid) :
    (s.videos.filter (fun v => v.id != vid) = [] →
        (removeVideo playOk s vid).currentVideoId = none)
  ∧ (∀ w rest, s.videos.filter (fun v => v.id != vid) = w :: rest →
        (removeVideo playOk s vid).currentVideoId = some w.id)
  ∧ (∀ other, other ≠ vid →
        (removeVideo playOk s other).currentVideoId = some vid)
  ∧ (currentIdValid s → ∀ x, currentIdValid (removeVideo playOk s x)) := by
  refine ⟨?_, ?_, ?_, ?_⟩
  · intro hfil
    simp [removeVideo, h, hfil]
  · intro w rest hfil
    simp [removeVideo, h, hfil, playVideo, List.find?]
  · intro other hne
    simp [removeVideo, h, Ne.symm hne]
  · intro hvalid x
    by_cases hx : s.currentVideoId = some x
    · cases hfil : s.videos.filter (fun v => v.id != x) with
      | nil =>
          intro v hv
          simp [removeVideo, hx, hfil] at hv
      | cons w rest =>
          have hr : removeVideo playOk s x =
              { s with
                videos := w :: rest
                currentVideoId := some w.id
                mediaSrc := some w.url
                mediaPlaying :=
                  if s.widgetDisplayed then playOk else s.mediaPlaying } := by
            simp [removeVideo, hx, hfil, playVideo, List.find?]
          intro v hv
          rw [hr] at hv ⊢
          have hveq : w.id = v := Option.some.inj hv
          subst hveq
          simp
    · have hr : removeVideo playOk s x =
          { s with videos := s.videos.filter (fun v => v.id != x) } := by
        simp [removeVideo, hx]
      intro v hv
      rw [hr] at hv ⊢
      have hveq : s.currentVideoId = some v := hv
      have hvs := hvalid v hveq
      have hvx : v ≠ x := by
        intro hc
        subst hc
        exact hx hveq
      simpa using mem_map_id_filter s.videos v x hvs hvx

/-- Two sample videos. -/
def videoA : Video := { id := "a", url := .strUrl "blob:a", title := "A" }

def videoB : Video := { id := "b", url := .strUrl "blob:b", title := "B" }

/-- A state with videos `a`, `b` and `a` currently playing. -/
def c4State : SDKState :=
  { baseState with
    videos := [videoA, videoB]
    currentVideoId := some "a"
    widgetDisplayed := true
    containerVisible := true
    isMinimized := false }

/-- A state with only video `a`, currently playing. -/
def c4OneVideo : SDKState :=
  { c4State with videos := [videoA] }

/-- Concrete instantiation of `removeVideo_currentVideoId_spec`: removing
the playing `a` advances to `b`; removing it when alone clears the id;
removing the non-playing `b` changes nothing; the membership invariant
survives. -/
theorem removeVideo_currentVideoId_spec_witness :
    (removeVideo true c4State "a").currentVideoId = some "b"
  ∧ (removeVideo true c4OneVideo "a").currentVideoId = none
  ∧ (removeVideo true c4State "b").currentVideoId = some "a"
  ∧ currentIdValid (removeVideo true c4State "b") := by
  refine ⟨(removeVideo_currentVideoId_spec true c4State "a"
        (by decide)).2.1 videoB [] (by decide),
    (removeVideo_currentVideoId_spec true c4OneVideo "a" (by decide)).1
      (by decide),
    (removeVideo_currentVideoId_spec true c4State "a" (by decide)).2.2.1 "b"
      (by decide),
    (removeVideo_currentVideoId_spec true c4State "a" (by decide)).2.2.2
      ?_ "b"⟩
  intro v hv
  have : v = "a" := by
    have hc : some "a" = some v := hv
    exact (Option.some.inj hc).symm
  subst this
  decide

/-- **C5.** Dispatching a `PlayVideo` option whose payload names a listed
video sets `currentVideoId` to that id; one whose payload matches no video
is a silent no-op — the whole instance state, video list included, is
unchanged and no error surfaces. -/
theorem playVideo_dispatch_spec (net : String → NetResponse)
    (playOk : Bool) (s : SDKState) (opt : InteractiveOption)
    (ha : opt.action = OptionAction.playVideo) :
    (opt.payload ∈ s.videos.map Video.id →
        (handleOptionClick net playOk s opt).currentVideoId
          = some opt.payload)
  ∧ (opt.payload ∉ s.videos.map Video.id →
        handleOptionClick net playOk s opt = s) := by
  constructor
  · intro hmem
    rcases List.mem_map.1 hmem with ⟨v, hv, hid⟩
    have hsome : (s.videos.find? (fun x => x.id == opt.payload)).isSome := by
      rw [List.find?_isSome]
      exact ⟨v, hv, by simp [hid]⟩
    rcases Option.isSome_iff_exists.1 hsome with ⟨w, hw⟩
    simp [handleOptionClick, ha, playVideo, hw]
  · intro hmem
    have hnone : s.videos.find? (fun x => x.id == opt.payload) = none := by
      rw [List.find?_eq_none]
      intro x hx hbe
      exact hmem (List.mem_map.2 ⟨x, hx, by simpa using hbe⟩)
    simp [handleOptionClick, ha, playVideo, hnone]

/-- A `PlayVideo` option pointing at video `b`. -/
def c5Hit : InteractiveOption :=
  { id := "o-b", text := "Play B", action := .playVideo, payload := "b" }

/-- A `PlayVideo` option pointing at a non-existent video. -/
def c5Miss : InteractiveOption :=
  { id := "o-z", text := "Play Z", action := .playVideo, payload := "zzz" }

/-- Concrete instantiation of `playVideo_dispatch_spec`: a matching
payload selects the video, a stale payload changes nothing. -/
theorem playVideo_dispatch_spec_witness :
    (handleOptionClick c1Net true c4State c5Hit).currentVideoId = some "b"
  ∧ handleOptionClick c1Net true c4State c5Miss = c4State :=
  ⟨(playVideo_dispatch_spec c1Net true c4State c5Hit (by decide)).1
      (by decide),
   (playVideo_dispatch_spec c1Net true c4State c5Miss (by decide)).2
      (by decide)⟩

/-!
### Visibility-gate invariance lemmas
-/

theorem playVideo_closedForSession (p : Bool) (s : SDKState) (v : String) :
    (playVideo p s v).closedForSession = s.closedForSession := by
  unfold playVideo
  cases s.videos.find? (fun x => x.id == v) <;> rfl

theorem playVideo_containerVisible (p : Bool) (s : SDKState) (v : String) :
    (playVideo p s v).containerVisible = s.containerVisible := by
  unfold playVideo
  cases s.videos.find? (fun x => x.id == v) <;> rfl

theorem toggleWidget_closedForSession (p : Bool) (s : SDKState) :
    (toggleWidget p s).closedForSession = s.closedForSession := by
  unfold toggleWidget
  split
  · cases h : s.currentVideoId <;>
      simp [h, playVideo_closedForSession]
  · simp [stopAllAudio]

theorem toggleWidget_containerVisible (p : Bool) (s : SDKState) :
    (toggleWidget p s).containerVisible = s.containerVisible := by
  unfold toggleWidget
  split
  · cases h : s.currentVideoId <;>
      simp [h, playVideo_containerVisible]
  · simp [stopAllAudio]

theorem replayVideo_closedForSession (p : Bool) (s : SDKState) :
    (replayVideo p s).closedForSession = s.closedForSession := by
  unfold replayVideo
  cases h : s.currentVideoId <;> simp [h, playVideo_closedForSession]

theorem replayVideo_containerVisible (p : Bool) (s : SDKState) :
    (replayVideo p s).containerVisible = s.containerVisible := by
  unfold replayVideo
  cases h : s.currentVideoId <;> simp [h, playVideo_containerVisible]

theorem removeVideo_closedForSession (p : Bool) (s : SDKState) (v : String) :
    (removeVideo p s v).closedForSession = s.closedForSession := by
  unfold removeVideo
  split
  · cases s.videos.filter (fun x => x.id != v) <;>
      simp [playVideo_closedForSession]
  · rfl

theorem removeVideo_containerVisible (p : Bool) (s : SDKState) (v : String) :
    (removeVideo p s v).containerVisible = s.containerVisible := by
  unfold removeVideo
  split
  · cases s.videos.filter (fun x => x.id != v) <;>
      simp [playVideo_containerVisible]
  · rfl

theorem addVideo_closedForSession (loader : String → Option String)
    (s : SDKState) (v : Video) :
    (addVideo loader s v).closedForSession = s.closedForSession := by
  unfold addVideo
  cases v.url with
  | strUrl u =>
      by_cases hb : strStartsWith u "blob:"
      · simp [hb]
      · cases hl : loader u <;> simp [hb, hl]
  | blobObj n => rfl

theorem addVideo_containerVisible (loader : String → Option String)
    (s : SDKState) (v : Video) :
    (addVideo loader s v).containerVisible = s.containerVisible := by
  unfold addVideo
  cases v.url with
  | strUrl u =>
      by_cases hb : strStartsWith u "blob:"
      · simp [hb]
      · cases hl : loader u <;> simp [hb, hl]
  | blobObj n => rfl

theorem fetchOptions_state_closedForSession (s : SDKState)
    (net : String → NetResponse) (id : String) :
    (fetchOptions s net id).state.closedForSession = s.closedForSession := by
  unfold fetchOptions
  cases h : mapLookup s.optionSets id with
  | some o => simp [h]
  | none =>
      cases hu : s.apiUrl with
      | none => simp [h, hu]
      | some u => cases hn : net id <;> simp [h, hu, hn]

theorem fetchOptions_state_containerVisible (s : SDKState)
    (net : String → NetResponse) (id : String) :
    (fetchOptions s net id).state.containerVisible = s.containerVisible := by
  unfold fetchOptions
  cases h : mapLookup s.optionSets id with
  | some o => simp [h]
  | none =>
      cases hu : s.apiUrl with
      | none => simp [h, hu]
      | some u => cases hn : net id <;> simp [h, hu, hn]

theorem changeInteractiveOptions_closedForSession (s : SDKState)
    (net : String → NetResponse) (id : String) :
    (changeInteractiveOptions s net id).closedForSession
      = s.closedForSession := by
  unfold changeInteractiveOptions
  exact fetchOptions_state_closedForSession s net id

theorem changeInteractiveOptions_containerVisible (s : SDKState)
    (net : String → NetResponse) (id : String) :
    (changeInteractiveOptions s net id).containerVisible
      = s.containerVisible := by
  unfold changeInteractiveOptions
  exact fetchOptions_state_containerVisible s net id

/-- Once the widget is closed-for-session and invisible, every operation
other than `resetClosedState` keeps it closed and invisible: `show` is a
no-op under the flag, nothing else ever makes the container visible, and
nothing but `resetClosedState` clears the flag. -/
theorem step_preserves_closed_invisible (net : String → NetResponse)
    (loader : String → Option String) (playOk : Bool) (op : SDKOp)
    (s : SDKState) (hop : op ≠ SDKOp.resetClosedOp)
    (hc : s.closedForSession = true) (hv : s.containerVisible = false) :
    (step net loader playOk op s).closedForSession = true
  ∧ (step net loader playOk op s).containerVisible = false := by
  cases op with
  | showOp => simp [step, showWidget, hc, hv]
  | hideOp => simp [step, hideWidget, stopAllAudio, hc]
  | toggleOp =>
      rw [step, toggleWidget_closedForSession, toggleWidget_containerVisible]
      exact ⟨hc, hv⟩
  | closeOp => simp [step, closeWidget, hideWidget, stopAllAudio]
  | resetClosedOp => exact absurd rfl hop
  | resolveOp id =>
      rw [step, changeInteractiveOptions_closedForSession,
        changeInteractiveOptions_containerVisible]
      exact ⟨hc, hv⟩
  | playOp vid =>
      rw [step, playVideo_closedForSession, playVideo_containerVisible]
      exact ⟨hc, hv⟩
  | replayOp =>
      rw [step, replayVideo_closedForSession, replayVideo_containerVisible]
      exact ⟨hc, hv⟩
  | chatOp => simp [step, startIntercomChat, hideWidget, stopAllAudio, hc]
  | addVideoOp v =>
      rw [step, addVideo_closedForSession, addVideo_containerVisible]
      exact ⟨hc, hv⟩
  | removeVideoOp vid =>
      rw [step, removeVideo_closedForSession, removeVideo_containerVisible]
      exact ⟨hc, hv⟩
  | addOptionOp o => exact ⟨hc, hv⟩
  | removeOptionOp oid => exact ⟨hc, hv⟩
  | addOptionSetOp id opts => exact ⟨hc, hv⟩
  | removeOptionSetOp id => exact ⟨hc, hv⟩
  | setApiUrlOp u => exact ⟨hc, hv⟩

/-- Closed-and-invisible is preserved by any operation sequence that never
calls `resetClosedState`. -/
theorem run_preserves_closed_invisible (net : String → NetResponse)
    (loader : String → Option String) (playOk : Bool) (ops : List SDKOp) :
    ∀ s : SDKState, SDKOp.resetClosedOp ∉ ops →
      s.closedForSession = true → s.containerVisible = false →
      (run net loader playOk ops s).closedForSession = true
      ∧ (run net loader playOk ops s).containerVisible = false := by
  induction ops with
  | nil =>
      intro s _ hc hv
      exact ⟨hc, hv⟩
  | cons op rest ih =>
      intro s hmem hc hv
      have hop : op ≠ SDKOp.resetClosedOp := by
        intro hcc
        exact hmem (hcc ▸ List.mem_cons_self op rest)
      have h1 := step_preserves_closed_invisible net loader playOk op s hop
        hc hv
      have h2 := ih (step net loader playOk op s)
        (fun hm => hmem (List.mem_cons_of_mem op hm)) h1.1 h1.2
      simpa [run] using h2

/-- **C6.** `closeForSession` sets the closed flag and hides the widget;
from then on, any operation sequence avoiding `resetClosedState` — in
particular any number of `show` calls — leaves the flag set and the widget
invisible; `resetClosedState` followed by `show` makes it visible again;
and `hide` never changes the flag. -/
theorem closeForSession_gates_show (net : String → NetResponse)
    (loader : String → Option String) (playOk : Bool) (s : SDKState)
    (ops : List SDKOp) (hops : SDKOp.resetClosedOp ∉ ops) :
    (closeWidget s).closedForSession = true
  ∧ (closeWidget s).containerVisible = false
  ∧ (run net loader playOk ops (closeWidget s)).closedForSession = true
  ∧ (run net loader playOk ops (closeWidget s)).containerVisible = false
  ∧ (showWidget (resetClosedState s)).containerVisible = true
  ∧ (hideWidget s).closedForSession = s.closedForSession := by
  have hrun := run_preserves_closed_invisible net loader playOk ops
    (closeWidget s) hops rfl rfl
  exact ⟨rfl, rfl, hrun.1, hrun.2,
    by simp [showWidget, resetClosedState],
    rfl⟩

/-- An operation sequence with two interleaved `show` attempts and other
activity, never resetting the closed flag. -/
def c6Ops : List SDKOp :=
  [.showOp, .toggleOp, .showOp, .resolveOp "menu", .hideOp, .showOp]

/-- Concrete instantiation of `closeForSession_gates_show`: after closing,
repeated `show` attempts leave the container invisible until the flag is
reset. -/
theorem closeForSession_gates_show_witness :
    (closeWidget c7State).closedForSession = true
  ∧ (closeWidget c7State).containerVisible = false
  ∧ (run c1Net noLoader true c6Ops (closeWidget c7State)).closedForSession
      = true
  ∧ (run c1Net noLoader true c6Ops (closeWidget c7State)).containerVisible
      = false
  ∧ (showWidget (resetClosedState c7State)).containerVisible = true
  ∧ (hideWidget c7State).closedForSession = c7State.closedForSession :=
  closeForSession_gates_show c1Net noLoader true c7State c6Ops (by decide)

/-!
### Source materialization (claim C8)
-/

/-- A video whose source is in reference (URL) form. -/
def c8Video : Video :=
  { id := "v1", url := .strUrl "https://cdn.example.com/v.mp4",
    title := "Clip" }

/-- **C8, counterexample.** The claim asserts that a materialization
failure in `addVideo` leaves the video present with its original
reference source.  In the code, the `push` sits inside the fetch success
continuation, so on failure the video is never appended: adding `c8Video`
to a fresh instance with a failing loader leaves the video list empty. -/
theorem addVideo_failure_claim_counterexample :
    (addVideo noLoader baseState c8Video).videos = []
  ∧ c8Video ∉ (addVideo noLoader baseState c8Video).videos := by
  refine ⟨rfl, ?_⟩
  rw [show (addVideo noLoader baseState c8Video).videos = [] from rfl]
  exact List.not_mem_nil c8Video

/-- **C8, amended.** For configuration-time loading (`loadVideos`), a
materialization failure leaves the video's original reference source in
place, with the video still in the list (and hence still playable via
that reference).  For `addVideo`, however, a reference-form video is
appended only after successful materialization: on failure the instance
state is completely unchanged — the video is not added at all. -/
theorem materialization_failure_amended (loader : String → Option String)
    (s : SDKState) (v : Video) (u : String)
    (hv : v ∈ s.videos) (hu : v.url = .strUrl u)
    (href : strStartsWith u "blob:" = false) (hfail : loader u = none) :
    v ∈ (loadVideos loader s).videos
  ∧ (loadVideos loader s).videos.length = s.videos.length
  ∧ ∀ (w : Video) (u' : String), w.url = .strUrl u' →
      strStartsWith u' "blob:" = false → loader u' = none →
      addVideo loader s w = s := by
  have hfix : loadVideo1 loader v = v := by
    simp [loadVideo1, hu, href, hfail]
  refine ⟨?_, ?_, ?_⟩
  · show v ∈ s.videos.map (loadVideo1 loader)
    exact List.mem_map.2 ⟨v, hv, hfix⟩
  · show (s.videos.map (loadVideo1 loader)).length = s.videos.length
    exact List.length_map s.videos (loadVideo1 loader)
  · intro w u' hw hb hf
    simp [addVideo, hw, hb, hf]

/-- A configured instance carrying the reference-form `c8Video`. -/
def c8State : SDKState := { baseState with videos := [c8Video] }

/-- Concrete instantiation of `materialization_failure_amended`: with an
always-failing loader, `loadVideos` keeps `c8Video` in reference form in
the list, and `addVideo` of the same video changes nothing. -/
theorem materialization_failure_amended_witness :
    c8Video ∈ (loadVideos noLoader c8State).videos
  ∧ (loadVideos noLoader c8State).videos.length = c8State.videos.length
  ∧ addVideo noLoader c8State c8Video = c8State := by
  have H := materialization_failure_amended noLoader c8State c8Video
    "https://cdn.example.com/v.mp4" (by decide) (by decide) (by decide)
    (by decide)
  exact ⟨H.1, H.2.1,
    H.2.2 c8Video "https://cdn.example.com/v.mp4" (by decide) (by decide)
      (by decide)⟩

/-!
### Concurrent ChangeOptions (claim C9)
-/

/-- Each continuation installs exactly its own result as the whole active
list, no matter what ran before it. -/
theorem applyCompletion_active (net : String → NetResponse) (w : World)
    (p : PendingResolve) :
    (applyCompletion net w p).sdk.interactiveOptions
      = completionResult net p := by
  cases p with
  | hit opts => rfl
  | remote id =>
      cases hn : net id <;> simp [applyCompletion, completionResult, hn]
  | noRemote => rfl

/-- The synchronous prefix of a dispatch leaves the instance state
untouched. -/
theorem dispatchChange_sdk (w : World) (id : String) :
    (dispatchChange w id).sdk = w.sdk := by
  unfold dispatchChange
  cases h : mapLookup w.sdk.optionSets id with
  | some o => rfl
  | none => cases hu : w.sdk.apiUrl <;> simp [h, hu]

/-- **C9.** With two `ChangeOptions` resolutions in flight, the active
option list ends as the result of whichever continuation completes last,
in either completion order and regardless of dispatch order; and two
cache-missing dispatches (even of the same id) are neither deduplicated
nor cancelled: both pending continuations remain and each issues its own
request. -/
theorem changeOptions_last_write_wins (net : String → NetResponse)
    (w : World) (p q : PendingResolve) (id1 id2 u : String)
    (h1 : mapLookup w.sdk.optionSets id1 = none)
    (h2 : mapLookup w.sdk.optionSets id2 = none)
    (hu : w.sdk.apiUrl = some u) :
    (applyCompletion net (applyCompletion net w p) q).sdk.interactiveOptions
        = completionResult net q
  ∧ (applyCompletion net (applyCompletion net w q) p).sdk.interactiveOptions
        = completionResult net p
  ∧ (dispatchChange (dispatchChange w id1) id2).pending
        = w.pending ++ [.remote id1, .remote id2]
  ∧ (dispatchChange (dispatchChange w id1) id2).requests
        = w.requests ++ [id1, id2] := by
  have hd1 : dispatchChange w id1 =
      { w with
        pending := w.pending ++ [.remote id1]
        requests := w.requests ++ [id1] } := by
    simp [dispatchChange, h1, hu]
  refine ⟨applyCompletion_active net _ q, applyCompletion_active net _ p,
    ?_, ?_⟩
  · rw [hd1]
    simp [dispatchChange, h2, hu]
  · rw [hd1]
    simp [dispatchChange, h2, hu]

/-- A fresh instance with a configured endpoint and nothing in flight. -/
def c9World : World :=
  { sdk := { baseState with apiUrl := some "https://api.example.com" }
    pending := []
    requests := [] }

/-- A network on which set `"s1"` resolves and set `"s2"` fails. -/
def c9Net : String → NetResponse :=
  fun id => if id = "s1" then .ok [sampleOpt] else .fail

/-- Concrete instantiation of `changeOptions_last_write_wins`: completing
`"s1"` then `"s2"` leaves the (failed, hence empty) `"s2"` result active;
completing in the opposite order leaves `"s1"`'s options active; both
dispatches stay pending and both requests go out. -/
theorem changeOptions_last_write_wins_witness :
    (applyCompletion c9Net (applyCompletion c9Net c9World (.remote "s1"))
        (.remote "s2")).sdk.interactiveOptions = []
  ∧ (applyCompletion c9Net (applyCompletion c9Net c9World (.remote "s2"))
        (.remote "s1")).sdk.interactiveOptions = [sampleOpt]
  ∧ (dispatchChange (dispatchChange c9World "s1") "s2").pending
      = [.remote "s1", .remote "s2"]
  ∧ (dispatchChange (dispatchChange c9World "s1") "s2").requests
      = ["s1", "s2"] := by
  have H := changeOptions_last_write_wins c9Net c9World (.remote "s1")
    (.remote "s2") "s1" "s2" "https://api.example.com" (by decide)
    (by decide) (by decide)
  exact ⟨H.1.trans (by decide), H.2.1.trans (by decide),
    H.2.2.1.trans (by decide), H.2.2.2.trans (by decide)⟩

end IVSDK
